import Mathlib

/-!
Verification of the ImPlot C-linkage shim (src/src/implot_extras.cpp).

The repository consists of five small forwarding functions over an active
ImPlot plot context.  The ImPlot/ImGui library itself is an external
collaborator (it is not part of the repository); the spec describes it as
providing the current plot's data-space limits, pixel position and size, a
data-to-pixel coordinate transform, a per-frame draw list, a clip-rect stack,
and a draggable-line interaction.  We model that ambient context explicitly
(`PlotContext`), the frame-local rendering state explicitly (`FrameState`),
and C out-pointer parameters as addresses into an explicit store
(`Store = Nat -> Rat`).  Numeric values (C `double`/`float`) are modelled
with exact rational arithmetic; the `(unsigned char)` cast is modelled as
truncation toward zero followed by reduction mod 256.
-/

/-- Pixel-space 2-vector (models ImVec2, with exact rationals for floats). -/
structure ImVec2 where
  x : ℚ
  y : ℚ
deriving DecidableEq, Repr

/-- Normalized RGBA color (models ImVec4 as used for colors). -/
structure ImVec4 where
  x : ℚ
  y : ℚ
  z : ℚ
  w : ℚ
deriving DecidableEq, Repr

/-- One axis range of the plot limits (models ImPlotRange). -/
structure ImPlotRange where
  Min : ℚ
  Max : ℚ
deriving DecidableEq, Repr

/-- Data-space visible rectangle of the active plot (models ImPlotRect). -/
structure ImPlotRect where
  X : ImPlotRange
  Y : ImPlotRange
deriving DecidableEq, Repr

/-- Pixel-space rectangle (models ImRect, used for clip rectangles). -/
structure ImRect where
  Min : ImVec2
  Max : ImVec2
deriving DecidableEq, Repr

/-- Truncation toward zero of a rational, the semantics of a C float-to-integer
cast: floor for nonnegative arguments, ceiling for negative ones. -/
def ratTruncToZero (q : ℚ) : ℤ :=
  if 0 ≤ q then ⌊q⌋ else ⌈q⌉

/-- Emitted 8-bit color channel for a normalized channel value `c`: the source
computes `(unsigned char)(c * 255)`, a plain truncating cast reduced to the
8-bit range. -/
def colByte (c : ℚ) : ℕ :=
  (ratTruncToZero (c * 255)).toNat % 256

/-- Packing of four 8-bit channels into a 32-bit color, as the IM_COL32 macro
does: r in the low byte, then g, b, a. -/
def IM_COL32 (r g b a : ℕ) : ℕ :=
  (a % 256) * 2 ^ 24 + (b % 256) * 2 ^ 16 + (g % 256) * 2 ^ 8 + r % 256

/-- A draw-list command: the shim only ever emits filled rectangles
(AddRectFilled).  Each command records the two corner points, the packed
32-bit color, and the clip rectangle that was on top of the clip stack when
the command was emitted (`none` when the stack was empty). -/
structure DrawCmd where
  rmin : ImVec2
  rmax : ImVec2
  col : ℕ
  clip : Option ImRect
deriving DecidableEq, Repr

/-- Modelled from the spec: the ambient, already-initialized plot context the
external plotting library keeps open for the current frame.  It provides the
current data-space limits, the pixel-space plot origin and size, the
data-to-pixel coordinate transform, the plot's interior clip rectangle, and
the per-frame drag interaction: `dragTarget id value` is `none` when the user
did not interact with the line of that id this frame, and `some v` when a drag
moved it to `v`. -/
structure PlotContext where
  limits : ImPlotRect
  pos : ImVec2
  size : ImVec2
  plotToPixels : ℚ → ℚ → ImVec2
  plotClipRect : ImRect
  dragTarget : ℤ → ℚ → Option ℚ

/-- Frame-local rendering state: the accumulated draw list and the clip-rect
stack. -/
structure FrameState where
  drawList : List DrawCmd
  clipStack : List ImRect

/-- Modelled from the spec: ImPlot::PushPlotClipRect pushes the active plot's
interior rectangle onto the clip-rect stack. -/
def PushPlotClipRect (ctx : PlotContext) (st : FrameState) : FrameState :=
  { st with clipStack := ctx.plotClipRect :: st.clipStack }

/-- Modelled from the spec: ImPlot::PopPlotClipRect pops the top of the
clip-rect stack. -/
def PopPlotClipRect (st : FrameState) : FrameState :=
  { st with clipStack := st.clipStack.tail }

/-- Modelled from the spec: ImDrawList::AddRectFilled appends one filled
rectangle command to the frame's draw list, clipped by the current top of the
clip-rect stack. -/
def AddRectFilled (rmin rmax : ImVec2) (col : ℕ) (st : FrameState) : FrameState :=
  { st with drawList := st.drawList ++ [⟨rmin, rmax, col, st.clipStack.head?⟩] }

/-- Modelled from the spec: ImPlot::DragLineX renders a draggable vertical
line; if the user drags it during this frame the referenced value is updated
in place, and the call returns whether the value changed this frame. -/
def ImPlotDragLineX (ctx : PlotContext) (id : ℤ) (value : ℚ)
    (col : ImVec4) (thickness : ℚ) : Bool × ℚ :=
  match ctx.dragTarget id value with
  | none => (false, value)
  | some v => (decide (v ≠ value), v)

/-- A C memory store for out-pointer parameters: addresses to rationals. -/
def Store : Type := ℕ → ℚ

/-- Write one value at one address of the store. -/
def writeStore (a : ℕ) (v : ℚ) (s : Store) : Store :=
  fun x => if x = a then v else s x

/-- Embedding of `rfFunGetPlotLimits` (src/src/implot_extras.cpp:4-10): reads
ImPlot::GetPlotLimits() and writes X.Min, X.Max, Y.Min, Y.Max through the four
out pointers, in that order. -/
def rfFunGetPlotLimits (ctx : PlotContext) (x_min x_max y_min y_max : ℕ)
    (s : Store) : Store :=
  let limits := ctx.limits
  let s := writeStore x_min limits.X.Min s
  let s := writeStore x_max limits.X.Max s
  let s := writeStore y_min limits.Y.Min s
  writeStore y_max limits.Y.Max s

/-- Embedding of `rfFunGetPlotPos` (src/src/implot_extras.cpp:12-15): reads
ImPlot::GetPlotPos() and writes its x and y through the two out pointers. -/
def rfFunGetPlotPos (ctx : PlotContext) (x y : ℕ) (s : Store) : Store :=
  let pos := ctx.pos
  writeStore y pos.y (writeStore x pos.x s)

/-- Embedding of `rfFunGetPlotSize` (src/src/implot_extras.cpp:17-20): reads
ImPlot::GetPlotSize() and writes its width and height through the two out
pointers. -/
def rfFunGetPlotSize (ctx : PlotContext) (w h : ℕ) (s : Store) : Store :=
  let size := ctx.size
  writeStore h size.y (writeStore w size.x s)

/-- Embedding of `rfFunDragLineX` (src/src/implot_extras.cpp:22-25): packs the
four channels into an ImVec4 and forwards to ImPlot::DragLineX, returning its
boolean together with the (possibly updated) referenced value. -/
def rfFunDragLineX (ctx : PlotContext) (id : ℤ) (value : ℚ)
    (r g b a thickness : ℚ) : Bool × ℚ :=
  ImPlotDragLineX ctx id value ⟨r, g, b, a⟩ thickness

/-- Embedding of `rfFunPlotBandX` (src/src/implot_extras.cpp:27-36): reads the
current plot limits, converts (x_min, Y.Max) and (x_max, Y.Min) to pixels,
pushes the plot clip rect, adds one filled rectangle in the IM_COL32-packed
color obtained by truncating each channel times 255, and pops the clip
rect. -/
def rfFunPlotBandX (ctx : PlotContext) (st : FrameState)
    (x_min x_max : ℚ) (r g b a : ℚ) : FrameState :=
  let limits := ctx.limits
  let rmin := ctx.plotToPixels x_min limits.Y.Max
  let rmax := ctx.plotToPixels x_max limits.Y.Min
  let st1 := PushPlotClipRect ctx st
  let st2 := AddRectFilled rmin rmax
    (IM_COL32 (colByte r) (colByte g) (colByte b) (colByte a)) st1
  PopPlotClipRect st2

/-- Concrete plot context used to instantiate universally quantified results:
data-space bounds x in [0,10], y in [-5,5], pixel origin (50,60), pixel size
(400,300), an affine data-to-pixel transform, and no drag interaction this
frame. -/
def ctx0 : PlotContext where
  limits := ⟨⟨0, 10⟩, ⟨-5, 5⟩⟩
  pos := ⟨50, 60⟩
  size := ⟨400, 300⟩
  plotToPixels := fun px py => ⟨50 + 40 * px, 60 + 30 * (5 - py)⟩
  plotClipRect := ⟨⟨50, 60⟩, ⟨450, 360⟩⟩
  dragTarget := fun _ _ => none

/-- Concrete empty frame state. -/
def st0 : FrameState where
  drawList := []
  clipStack := []

/-- Concrete store holding zero everywhere. -/
def s0 : Store := fun _ => 0

/-! Helper lemmas shared by several results. -/

/-- Helper: on [0, 1] the truncating channel conversion agrees with the floor
of 255 times the channel. -/
theorem colByte_eq_floor (c : ℚ) (h0 : 0 ≤ c) (h1 : c ≤ 1) :
    (colByte c : ℤ) = ⌊(255 : ℚ) * c⌋ := by
  rw [mul_comm (255 : ℚ) c]
  unfold colByte ratTruncToZero
  have hc0 : (0 : ℚ) ≤ c * 255 := by positivity
  rw [if_pos hc0]
  have hf0 : 0 ≤ ⌊c * 255⌋ := Int.floor_nonneg.mpr hc0
  have hf1 : ⌊c * 255⌋ ≤ 255 := by
    have h : c * 255 ≤ 255 := by nlinarith
    calc ⌊c * 255⌋ ≤ ⌊(255 : ℚ)⌋ := Int.floor_le_floor h
    _ = 255 := by norm_num
  omega

/-- Theorem for claim C1: for every plot context, frame state, x-range and
color, `rfFunPlotBandX` emits exactly one filled-rectangle command, appended
to the draw list, whose corners are the data-to-pixel conversions of
(x_min, current y-max) and (x_max, current y-min), carrying the packed color
of the truncated channels and clipped by the plot's interior rectangle. -/
theorem rfFunPlotBandX_single_rect (ctx : PlotContext) (st : FrameState)
    (x_min x_max r g b a : ℚ) :
    (rfFunPlotBandX ctx st x_min x_max r g b a).drawList =
      st.drawList ++
        [⟨ctx.plotToPixels x_min ctx.limits.Y.Max,
          ctx.plotToPixels x_max ctx.limits.Y.Min,
          IM_COL32 (colByte r) (colByte g) (colByte b) (colByte a),
          some ctx.plotClipRect⟩] := by
  rfl

/-- Theorem for claim C6: `rfFunPlotBandX` is exactly a push of the plot clip
rect, one filled-rectangle draw, and a pop; consequently the clip-rect stack
after the call equals the clip-rect stack before the call. -/
theorem rfFunPlotBandX_clip_balanced (ctx : PlotContext) (st : FrameState)
    (x_min x_max r g b a : ℚ) :
    rfFunPlotBandX ctx st x_min x_max r g b a =
      PopPlotClipRect (AddRectFilled
        (ctx.plotToPixels x_min ctx.limits.Y.Max)
        (ctx.plotToPixels x_max ctx.limits.Y.Min)
        (IM_COL32 (colByte r) (colByte g) (colByte b) (colByte a))
        (PushPlotClipRect ctx st)) ∧
    (rfFunPlotBandX ctx st x_min x_max r g b a).clipStack = st.clipStack := by
  exact ⟨rfl, rfl⟩

/-- Theorem for claim C9: the band operation imposes no ordering precondition
on its x-range: even when x_min > x_max, no swap, clamp or rejection happens,
and the single emitted filled-rectangle command still uses the two corner
points computed from the arguments as given. -/
theorem rfFunPlotBandX_reversed_range (ctx : PlotContext) (st : FrameState)
    (x_min x_max r g b a : ℚ) (h : x_max < x_min) :
    (rfFunPlotBandX ctx st x_min x_max r g b a).drawList =
      st.drawList ++
        [⟨ctx.plotToPixels x_min ctx.limits.Y.Max,
          ctx.plotToPixels x_max ctx.limits.Y.Min,
          IM_COL32 (colByte r) (colByte g) (colByte b) (colByte a),
          some ctx.plotClipRect⟩] := by
  rfl

/-- Witness for claim C9 at the concrete reversed range x_min = 4 > x_max = 2
on the concrete context. -/
theorem rfFunPlotBandX_reversed_range_witness :
    (2 : ℚ) < 4 ∧
    (rfFunPlotBandX ctx0 st0 4 2 1 0 0 1).drawList =
      st0.drawList ++
        [⟨ctx0.plotToPixels 4 ctx0.limits.Y.Max,
          ctx0.plotToPixels 2 ctx0.limits.Y.Min,
          IM_COL32 (colByte 1) (colByte 0) (colByte 0) (colByte 1),
          some ctx0.plotClipRect⟩] :=
  ⟨by norm_num, rfFunPlotBandX_reversed_range ctx0 st0 4 2 1 0 0 1 (by norm_num)⟩

/-- Counterexample for claim C2: at channel value 9/10 the code's truncating
conversion emits 229, while round(255 x 9/10) = round(229.5) = 230, so the
emitted channel does not equal the rounded value. -/
theorem colByte_differs_from_round :
    colByte (9 / 10) = 229 ∧ round ((255 : ℚ) * (9 / 10)) = 230 ∧
    (colByte (9 / 10) : ℤ) ≠ round ((255 : ℚ) * (9 / 10)) := by
  have hf : ⌊(9 / 10 : ℚ) * 255⌋ = 229 := by norm_num
  have h1 : colByte (9 / 10) = 229 := by
    unfold colByte ratTruncToZero
    rw [if_pos (by norm_num : (0 : ℚ) ≤ 9 / 10 * 255), hf]
    rfl
  have h2 : round ((255 : ℚ) * (9 / 10)) = 230 := by
    rw [round_eq]
    norm_num
  refine ⟨h1, h2, by rw [h1, h2]; norm_num⟩

/-- Theorem for claim C2 as amended: for every normalized channel value c in
[0, 1], the emitted 8-bit channel equals the floor (truncation) of 255 x c,
not its rounding to nearest. -/
theorem colByte_floor_semantics (c : ℚ) (h0 : 0 ≤ c) (h1 : c ≤ 1) :
    (colByte c : ℤ) = ⌊(255 : ℚ) * c⌋ :=
  colByte_eq_floor c h0 h1

/-- Witness for claim C2 (amended) at the concrete channel value 1/2. -/
theorem colByte_floor_semantics_witness :
    (0 : ℚ) ≤ 1 / 2 ∧ (1 / 2 : ℚ) ≤ 1 ∧
    (colByte (1 / 2) : ℤ) = ⌊(255 : ℚ) * (1 / 2)⌋ :=
  ⟨by norm_num, by norm_num,
    colByte_floor_semantics (1 / 2) (by norm_num) (by norm_num)⟩

/-- Theorem for claim C3: the band operation's channel conversion multiplies
by 255 and truncates, so for every channel value c in [0, 1) the emitted 8-bit
channel equals floor(255 x c). -/
theorem colByte_trunc_floor (c : ℚ) (h0 : 0 ≤ c) (h1 : c < 1) :
    (colByte c : ℤ) = ⌊(255 : ℚ) * c⌋ :=
  colByte_eq_floor c h0 (le_of_lt h1)

/-- Witness for claim C3 at the concrete channel value 9/10. -/
theorem colByte_trunc_floor_witness :
    (0 : ℚ) ≤ 9 / 10 ∧ (9 / 10 : ℚ) < 1 ∧
    (colByte (9 / 10) : ℤ) = ⌊(255 : ℚ) * (9 / 10)⌋ :=
  ⟨by norm_num, by norm_num,
    colByte_trunc_floor (9 / 10) (by norm_num) (by norm_num)⟩

/-- Theorem for claim C4: with pairwise distinct output addresses,
`rfFunGetPlotLimits` writes exactly the context's current x-min, x-max, y-min
and y-max into the four slots, and leaves every other address of the store
unchanged. -/
theorem rfFunGetPlotLimits_writes_exactly (ctx : PlotContext)
    (p0 p1 p2 p3 : ℕ) (s : Store)
    (h01 : p0 ≠ p1) (h02 : p0 ≠ p2) (h03 : p0 ≠ p3)
    (h12 : p1 ≠ p2) (h13 : p1 ≠ p3) (h23 : p2 ≠ p3) :
    rfFunGetPlotLimits ctx p0 p1 p2 p3 s p0 = ctx.limits.X.Min ∧
    rfFunGetPlotLimits ctx p0 p1 p2 p3 s p1 = ctx.limits.X.Max ∧
    rfFunGetPlotLimits ctx p0 p1 p2 p3 s p2 = ctx.limits.Y.Min ∧
    rfFunGetPlotLimits ctx p0 p1 p2 p3 s p3 = ctx.limits.Y.Max ∧
    ∀ a, a ≠ p0 → a ≠ p1 → a ≠ p2 → a ≠ p3 →
      rfFunGetPlotLimits ctx p0 p1 p2 p3 s a = s a := by
  refine ⟨?_, ?_, ?_, ?_, ?_⟩
  · simp [rfFunGetPlotLimits, writeStore, h01, h02, h03]
  · simp [rfFunGetPlotLimits, writeStore, h12, h13]
  · simp [rfFunGetPlotLimits, writeStore, h23]
  · simp [rfFunGetPlotLimits, writeStore]
  · intro a ha0 ha1 ha2 ha3
    simp [rfFunGetPlotLimits, writeStore, ha0, ha1, ha2, ha3]

/-- Witness for claim C4 at addresses 0, 1, 2, 3 on the concrete context. -/
theorem rfFunGetPlotLimits_writes_exactly_witness :
    rfFunGetPlotLimits ctx0 0 1 2 3 s0 0 = ctx0.limits.X.Min ∧
    rfFunGetPlotLimits ctx0 0 1 2 3 s0 1 = ctx0.limits.X.Max ∧
    rfFunGetPlotLimits ctx0 0 1 2 3 s0 2 = ctx0.limits.Y.Min ∧
    rfFunGetPlotLimits ctx0 0 1 2 3 s0 3 = ctx0.limits.Y.Max ∧
    ∀ a, a ≠ 0 → a ≠ 1 → a ≠ 2 → a ≠ 3 →
      rfFunGetPlotLimits ctx0 0 1 2 3 s0 a = s0 a :=
  rfFunGetPlotLimits_writes_exactly ctx0 0 1 2 3 s0 (by decide) (by decide)
    (by decide) (by decide) (by decide) (by decide)

/-- Theorem for claim C5: the drag operation returns true exactly when the
referenced value changed this frame, and on a frame with no user interaction
on the line it leaves the value unchanged and returns false. -/
theorem rfFunDragLineX_changed_iff (ctx : PlotContext) (id : ℤ)
    (value r g b a thickness : ℚ) :
    ((rfFunDragLineX ctx id value r g b a thickness).1 = true ↔
      (rfFunDragLineX ctx id value r g b a thickness).2 ≠ value) ∧
    (ctx.dragTarget id value = none →
      rfFunDragLineX ctx id value r g b a thickness = (false, value)) := by
  unfold rfFunDragLineX ImPlotDragLineX
  cases h : ctx.dragTarget id value with
  | none => simp
  | some v => simp

/-- Witness for claim C5 on the concrete context, which has no drag
interaction this frame. -/
theorem rfFunDragLineX_changed_iff_witness :
    (((rfFunDragLineX ctx0 1 3 0 0 1 1 2).1 = true ↔
      (rfFunDragLineX ctx0 1 3 0 0 1 1 2).2 ≠ 3) ∧
      rfFunDragLineX ctx0 1 3 0 0 1 1 2 = (false, 3)) :=
  ⟨(rfFunDragLineX_changed_iff ctx0 1 3 0 0 1 1 2).1,
    (rfFunDragLineX_changed_iff ctx0 1 3 0 0 1 1 2).2 rfl⟩

/-- Theorem for claim C7: with distinct output addresses, `rfFunGetPlotPos`
writes exactly the context's pixel-space origin (x, y) into its two slots and
`rfFunGetPlotSize` writes exactly the pixel-space width and height into its
two slots, each leaving every other address of its store unchanged. -/
theorem plot_pos_size_writes_exactly (ctx : PlotContext) (q0 q1 u0 u1 : ℕ)
    (s t : Store) (hq : q0 ≠ q1) (hu : u0 ≠ u1) :
    rfFunGetPlotPos ctx q0 q1 s q0 = ctx.pos.x ∧
    rfFunGetPlotPos ctx q0 q1 s q1 = ctx.pos.y ∧
    (∀ a, a ≠ q0 → a ≠ q1 → rfFunGetPlotPos ctx q0 q1 s a = s a) ∧
    rfFunGetPlotSize ctx u0 u1 t u0 = ctx.size.x ∧
    rfFunGetPlotSize ctx u0 u1 t u1 = ctx.size.y ∧
    (∀ a, a ≠ u0 → a ≠ u1 → rfFunGetPlotSize ctx u0 u1 t a = t a) := by
  refine ⟨?_, ?_, ?_, ?_, ?_, ?_⟩
  · simp [rfFunGetPlotPos, writeStore, hq]
  · simp [rfFunGetPlotPos, writeStore]
  · intro a ha0 ha1
    simp [rfFunGetPlotPos, writeStore, ha0, ha1]
  · simp [rfFunGetPlotSize, writeStore, hu]
  · simp [rfFunGetPlotSize, writeStore]
  · intro a ha0 ha1
    simp [rfFunGetPlotSize, writeStore, ha0, ha1]

/-- Witness for claim C7 at addresses 0, 1 for the position store and 0, 1 for
the size store on the concrete context. -/
theorem plot_pos_size_writes_exactly_witness :
    rfFunGetPlotPos ctx0 0 1 s0 0 = ctx0.pos.x ∧
    rfFunGetPlotPos ctx0 0 1 s0 1 = ctx0.pos.y ∧
    (∀ a, a ≠ 0 → a ≠ 1 → rfFunGetPlotPos ctx0 0 1 s0 a = s0 a) ∧
    rfFunGetPlotSize ctx0 0 1 s0 0 = ctx0.size.x ∧
    rfFunGetPlotSize ctx0 0 1 s0 1 = ctx0.size.y ∧
    (∀ a, a ≠ 0 → a ≠ 1 → rfFunGetPlotSize ctx0 0 1 s0 a = s0 a) :=
  plot_pos_size_writes_exactly ctx0 0 1 0 1 s0 s0 (by decide) (by decide)

/-- Theorem for claim C8: for every input, unconditionally, each operation
completes its specified effect without validation or any error result: the
band always emits exactly one draw command, the three getters always perform
their writes, and the only boolean in the surface is the drag operation's,
which reports exactly whether the referenced value changed, not an error. -/
theorem shim_no_validation_no_error (ctx : PlotContext) (st : FrameState)
    (x_min x_max r g b a value thickness : ℚ) (id : ℤ)
    (p0 p1 p2 p3 q0 q1 u0 u1 : ℕ) (s t u : Store) :
    (rfFunPlotBandX ctx st x_min x_max r g b a).drawList.length =
      st.drawList.length + 1 ∧
    rfFunGetPlotLimits ctx p0 p1 p2 p3 s p3 = ctx.limits.Y.Max ∧
    rfFunGetPlotPos ctx q0 q1 t q1 = ctx.pos.y ∧
    rfFunGetPlotSize ctx u0 u1 u u1 = ctx.size.y ∧
    ((rfFunDragLineX ctx id value r g b a thickness).1 = true ↔
      (rfFunDragLineX ctx id value r g b a thickness).2 ≠ value) := by
  refine ⟨?_, ?_, ?_, ?_, ?_⟩
  · simp [rfFunPlotBandX, PushPlotClipRect, AddRectFilled, PopPlotClipRect]
  · simp [rfFunGetPlotLimits, writeStore]
  · simp [rfFunGetPlotPos, writeStore]
  · simp [rfFunGetPlotSize, writeStore]
  · unfold rfFunDragLineX ImPlotDragLineX
    cases h : ctx.dragTarget id value with
    | none => simp
    | some v => simp

/-- Theorem for claim C10: every operation is deterministic: two invocations
with equal arguments against equal ambient context, frame and store states
produce identical written stores, identical drag results, and identical frame
states (draw commands included). -/
theorem shim_deterministic (ctx ctx' : PlotContext) (st st' : FrameState)
    (s s' t t' u u' : Store) (x_min x_max r g b a value thickness : ℚ)
    (id : ℤ) (p0 p1 p2 p3 q0 q1 u0 u1 : ℕ)
    (hctx : ctx = ctx') (hst : st = st') (hs : s = s') (ht : t = t')
    (hu : u = u') :
    rfFunPlotBandX ctx st x_min x_max r g b a =
      rfFunPlotBandX ctx' st' x_min x_max r g b a ∧
    rfFunDragLineX ctx id value r g b a thickness =
      rfFunDragLineX ctx' id value r g b a thickness ∧
    rfFunGetPlotLimits ctx p0 p1 p2 p3 s =
      rfFunGetPlotLimits ctx' p0 p1 p2 p3 s' ∧
    rfFunGetPlotPos ctx q0 q1 t = rfFunGetPlotPos ctx' q0 q1 t' ∧
    rfFunGetPlotSize ctx u0 u1 u = rfFunGetPlotSize ctx' u0 u1 u' := by
  subst hctx hst hs ht hu
  exact ⟨rfl, rfl, rfl, rfl, rfl⟩

/-- Witness for claim C10 on the concrete context, frame state and stores. -/
theorem shim_deterministic_witness :
    rfFunPlotBandX ctx0 st0 2 4 1 0 0 1 = rfFunPlotBandX ctx0 st0 2 4 1 0 0 1 ∧
    rfFunDragLineX ctx0 7 3 1 0 0 1 2 = rfFunDragLineX ctx0 7 3 1 0 0 1 2 ∧
    rfFunGetPlotLimits ctx0 0 1 2 3 s0 = rfFunGetPlotLimits ctx0 0 1 2 3 s0 ∧
    rfFunGetPlotPos ctx0 0 1 s0 = rfFunGetPlotPos ctx0 0 1 s0 ∧
    rfFunGetPlotSize ctx0 0 1 s0 = rfFunGetPlotSize ctx0 0 1 s0 :=
  shim_deterministic ctx0 ctx0 st0 st0 s0 s0 s0 s0 s0 s0 2 4 1 0 0 1 3 2 7
    0 1 2 3 0 1 0 1 rfl rfl rfl rfl rfl
